import Mathlib

/-!
Verification of the sandbox execution orchestrator of ConfigWhiz
(`python_tester_backend/main.py`).

The Python source is shallowly embedded: pure text processing
(`sanitize_java_code`, the Java layout-repair heuristics, the Python
project-command composition) is translated into executable Lean
functions on `String` / `List Char`; the two effectful request handlers
(`run_in_docker`, `run_project_in_docker`) become pure functions from an
explicit environment (an oracle recording what the Docker daemon and the
filesystem would answer at each interaction point) to a trace recording
the returned result together with resource accounting (workspaces and
container handles created/removed, files written, the command launched,
and the Java restructuring moves performed).
-/

namespace ConfigWhiz

/-! ## Python string primitives

`str.splitlines`, `str.strip`, and joining with a newline, modelled on
`List Char`.  `pySplitlines` follows Python semantics: every line-break
character terminates a line, `\r\n` counts as a single break, and the
result carries no trailing empty line for a trailing break.  -/

/-- Characters Python's `str.splitlines` treats as line breaks
(the Unicode set used by CPython). -/
def isLineBreak (c : Char) : Bool :=
  c = '\n' ∨ c = '\r' ∨ c = '\x0b' ∨ c = '\x0c' ∨
  c = '\x1c' ∨ c = '\x1d' ∨ c = '\x1e' ∨ c = '\x85' ∨
  c = '\u2028' ∨ c = '\u2029'

/-- Characters Python's `str.strip()` removes (whitespace; the ASCII
portion plus the common Unicode members). -/
def pyIsSpace (c : Char) : Bool :=
  c = ' ' ∨ c = '\t' ∨ c = '\n' ∨ c = '\r' ∨ c = '\x0b' ∨ c = '\x0c' ∨
  c = '\x1c' ∨ c = '\x1d' ∨ c = '\x1e' ∨ c = '\x1f' ∨ c = '\x85' ∨ c = '\xa0'

/-- Prepend a character to the first line of a line list (starting a new
line when there is none). -/
def consHead (c : Char) : List (List Char) → List (List Char)
  | [] => [[c]]
  | l :: ls => (c :: l) :: ls

/-- `str.splitlines` on a character list: a break character ends the
current line, `\r\n` counts as one break, and a trailing break produces
no extra empty line. -/
def splitlinesL : List Char → List (List Char)
  | [] => []
  | c :: rest =>
    if c = '\r' then
      match rest with
      | '\n' :: rest2 => [] :: splitlinesL rest2
      | [] => [[]]
      | c2 :: rest2 => [] :: splitlinesL (c2 :: rest2)
    else if isLineBreak c then [] :: splitlinesL rest
    else consHead c (splitlinesL rest)

/-- `"\n".join` on character-list lines. -/
def joinNlL : List (List Char) → List Char
  | [] => []
  | [x] => x
  | x :: xs => x ++ '\n' :: joinNlL xs

/-- `str.strip()` on a character list. -/
def stripL (cs : List Char) : List Char :=
  ((cs.dropWhile pyIsSpace).reverse.dropWhile pyIsSpace).reverse

/-! ## The Java sanitizer (`sanitize_java_code`, main.py lines 68-92) -/

/-- The sanitizer's first branch: `stripped.startswith("import ") and
stripped.endswith(";")`. -/
def isImportLineL (l : List Char) : Bool :=
  "import ".toList.isPrefixOf (stripL l) && ((stripL l).getLast? == some ';')

/-- The sanitizer's second branch: `stripped.startswith("package ")`. -/
def isPackageLineL (l : List Char) : Bool :=
  "package ".toList.isPrefixOf (stripL l)

/-- Helper for `dedupFirst`: keeps elements not yet seen, in order. -/
def dedupFirstAux {α : Type} [DecidableEq α] (seen : List α) : List α → List α
  | [] => []
  | x :: xs => if x ∈ seen then dedupFirstAux seen xs else x :: dedupFirstAux (x :: seen) xs

/-- `list(dict.fromkeys(xs))`: deduplication keeping the first
occurrence of each element, in first-occurrence order. -/
def dedupFirst {α : Type} [DecidableEq α] (l : List α) : List α :=
  dedupFirstAux [] l

/-- `sanitize_java_code` (main.py 68-92): split into lines, collect
the import lines, drop the package lines, keep everything else as the
body; reassemble as deduplicated imports, one blank line, body. -/
def sanitize_java_code (s : String) : String :=
  let lines := splitlinesL s.toList
  let imports := lines.filter isImportLineL
  let code_body := lines.filter (fun l => !(isImportLineL l) && !(isPackageLineL l))
  String.mk (joinNlL (dedupFirst imports ++ [[]] ++ code_body))

/-- The import lines of a source string, in order. -/
def javaImportLines (s : String) : List (List Char) :=
  (splitlinesL s.toList).filter isImportLineL

/-- The body lines of a source string: neither imports nor package
declarations, in order. -/
def javaBodyLines (s : String) : List (List Char) :=
  (splitlinesL s.toList).filter (fun l => !(isImportLineL l) && !(isPackageLineL l))

/-! ### Splitting the result of joining break-free lines -/

/-- `ls` with a single trailing empty line removed; this is exactly what
`splitlinesL` recovers from `joinNlL ls`. -/
def dropTrailEmpty : List (List Char) → List (List Char)
  | [] => []
  | [x] => if x = [] then [] else [x]
  | x :: y :: xs => x :: dropTrailEmpty (y :: xs)

/-! ## The execution orchestrator

`run_in_docker` (main.py 96-182) and `run_project_in_docker`
(main.py 187-354) are embedded as pure functions from an explicit
environment — an oracle answering, in program order, what the Docker
daemon, the registry, and the filesystem would do — to a trace holding
the returned value plus resource accounting. -/

/-- `TestResult` (main.py 62-65). -/
structure TestResultV where
  success : Bool
  summary : String
  output : String
deriving DecidableEq, Repr

/-- An exception escaping a helper: an explicit `HTTPException`, or a
`KeyError` from a failed dictionary lookup. -/
inductive ExcKind where
  | httpExc (status : Nat) (detail : String)
  | keyError (key : String)
deriving DecidableEq, Repr

/-- A request either returns a `TestResult` or lets an exception
propagate to the caller. -/
inductive ReqOut where
  | raised (e : ExcKind)
  | ok (r : TestResultV)
deriving DecidableEq, Repr

/-- A file move performed by the Java flat-layout repair:
`origName` at the workspace root is moved to `destDir/destName`. -/
structure JavaMove where
  origName : String
  destDir : String
  destName : String
deriving DecidableEq, Repr

/-- The observable effects of one request: the value returned plus
resource accounting.  `wsCreated`/`wsRemoved` count workspace
directories made and deleted, `handleCreated`/`handleRemoved` count
containers started and force-removed, `filesWritten` lists the
(name, content) pairs staged into the workspace by the handler (the
submission files in single-file mode; normalizer-generated artifacts in
project mode), `command` is the command handed to `containers.run` when
a container was launched, and `javaMoves` records flat-layout repair. -/
structure RunTrace where
  out : ReqOut
  wsCreated : Nat
  wsRemoved : Nat
  handleCreated : Nat
  handleRemoved : Nat
  filesWritten : List (String × String)
  command : Option (List String)
  javaMoves : List JavaMove
deriving DecidableEq, Repr

/-- A trace for a request that ends before the workspace is created. -/
def noResTrace (o : ReqOut) : RunTrace :=
  ⟨o, 0, 0, 0, 0, [], none, []⟩

/-- What `client.images.get(image_name)` does. -/
inductive ImgGet where
  | found
  | notFound
  | otherError
deriving DecidableEq, Repr

/-- Oracle for a single-file request: what each external interaction
would answer, in program order. -/
structure ExecEnv where
  /-- outcome of `client.images.get` -/
  imgGet : ImgGet
  /-- whether `client.images.pull` succeeds when the image is absent -/
  pullOk : Bool
  /-- `str(pull_error)` when the pull fails -/
  pullError : String
  /-- whether writing the staged files succeeds -/
  stageOk : Bool
  /-- whether `client.containers.run` succeeds -/
  runOk : Bool
  /-- whether `container.wait(timeout=...)` returns within the bound -/
  waitCompletes : Bool
  /-- the `StatusCode` entry of the wait result, when present -/
  statusCode : Option Int
  /-- the combined stdout/stderr log of the container -/
  logs : String
  /-- `str(e)` for whichever unexpected exception the environment threw -/
  excMsg : String

/-- `DOCKER_IMAGES` (main.py 42-47). -/
def DOCKER_IMAGES : List (String × String) :=
  [("python", "python:3.11-slim"),
   ("javascript", "node:20-slim"),
   ("java", "eclipse-temurin:17-jdk"),
   ("java-project", "maven:3.9-eclipse-temurin-17")]

/-- `RUN_COMMANDS` (main.py 49-53); note there is no `java-project`
entry. -/
def RUN_COMMANDS : List (String × List String) :=
  [("python", ["python", "-m", "unittest", "test_code.py"]),
   ("javascript", ["node", "test_code.js"]),
   ("java", ["sh", "-c", "javac TestRunner.java && java TestRunner"])]

/-- The files staged into the workspace in single-file mode
(main.py 131-146): Java writes only `TestRunner.java` holding the
sanitized test code; the other languages write the submitted source and
the test source under fixed names. -/
def stagedFiles (language code test_code : String) : List (String × String) :=
  if language = "java" then
    [("TestRunner.java", sanitize_java_code test_code)]
  else
    let code_filename := if language = "python" then "user_code.py" else "user_code.js"
    let test_filename := if language = "python" then "test_code.py" else "test_code.js"
    [(code_filename, code), (test_filename, test_code)]

/-- `run_in_docker` (main.py 96-182). -/
def run_in_docker (env : ExecEnv) (language code test_code : String) : RunTrace :=
  match DOCKER_IMAGES.lookup language with
  | none => noResTrace (.raised (.httpExc 400 "Unsupported language"))
  | some image_name =>
    match RUN_COMMANDS.lookup language with
    | none =>
      -- `RUN_COMMANDS[language]` raises `KeyError` before any further step
      noResTrace (.raised (.keyError language))
    | some run_command =>
      match env.imgGet with
      | .otherError =>
        noResTrace (.raised (.httpExc 500 ("Docker error: " ++ env.excMsg)))
      | .notFound =>
        if env.pullOk then
          noResTrace (.ok ⟨false, "Downloading Environment...",
            "The Docker image \x27" ++ image_name ++
              "\x27 was not found. The download has completed. Please try running the test again."⟩)
        else
          noResTrace (.ok ⟨false, "Failed to Download Environment",
            "Failed to pull Docker image \x27" ++ image_name ++ "\x27. Error: " ++ env.pullError⟩)
      | .found =>
        -- the workspace directory is created here
        if env.stageOk = false then
          { out := .ok ⟨false, "Docker Execution Error",
              "An unexpected error occurred: " ++ env.excMsg⟩,
            wsCreated := 1, wsRemoved := 1, handleCreated := 0, handleRemoved := 0,
            filesWritten := [], command := none, javaMoves := [] }
        else if env.runOk = false then
          { out := .ok ⟨false, "Docker Execution Error",
              "An unexpected error occurred: " ++ env.excMsg⟩,
            wsCreated := 1, wsRemoved := 1, handleCreated := 0, handleRemoved := 0,
            filesWritten := stagedFiles language code test_code,
            command := none, javaMoves := [] }
        else if env.waitCompletes = false then
          { out := .ok ⟨false, "Code execution timed out (5 minutes).",
              "Timeout: The test run exceeded the 5-minute limit."⟩,
            wsCreated := 1, wsRemoved := 1, handleCreated := 1, handleRemoved := 1,
            filesWritten := stagedFiles language code test_code,
            command := some run_command, javaMoves := [] }
        else if env.statusCode.getD 1 = 0 then
          { out := .ok ⟨true, "All tests passed!", env.logs⟩,
            wsCreated := 1, wsRemoved := 1, handleCreated := 1, handleRemoved := 1,
            filesWritten := stagedFiles language code test_code,
            command := some run_command, javaMoves := [] }
        else
          { out := .ok ⟨false, "Tests Failed or Code Error", env.logs⟩,
            wsCreated := 1, wsRemoved := 1, handleCreated := 1, handleRemoved := 1,
            filesWritten := stagedFiles language code test_code,
            command := some run_command, javaMoves := [] }

/-- `str(e)` for a modelled exception (approximating Python's
formatting: a `KeyError` prints its key, an `HTTPException` its
detail). -/
def excStr : ExcKind → String
  | .httpExc _ d => d
  | .keyError k => k

/-- The `/run-test` endpoint body (main.py 359-364): any exception
escaping `run_in_docker` — including an `HTTPException` it raised
itself — is caught and re-raised as a 500. -/
def run_test (env : ExecEnv) (language code test_code : String) : ReqOut :=
  match (run_in_docker env language code test_code).out with
  | .ok r => .ok r
  | .raised e => .raised (.httpExc 500 ("Internal Server Error: " ++ excStr e))

/-- Modelled from the spec: the verdict taxonomy of section 4.5/7,
keyed on the fixed summary strings the code uses.  The code itself has
no verdict enum — this is the spec-side classification the claims are
stated against. -/
inductive Verdict where
  | Success
  | Failed
  | TimedOut
  | ImagePulling
  | InvalidProject
  | InfrastructureError
deriving DecidableEq, Repr

/-- Modelled from the spec: map a returned `TestResult` to the spec's
verdict category via its summary string. -/
def verdictOf (r : TestResultV) : Verdict :=
  if r.summary = "All tests passed!" ∨ r.summary = "All project tests passed!" then .Success
  else if r.summary = "Tests Failed or Code Error" ∨ r.summary = "Project Tests Failed" then .Failed
  else if r.summary = "Code execution timed out (5 minutes)." ∨
    r.summary = "Project execution timed out (10 minutes)." then .TimedOut
  else if r.summary = "Downloading Environment..." then .ImagePulling
  else if r.summary = "Invalid Project" ∨ r.summary = "ZIP Error" then .InvalidProject
  else .InfrastructureError

/-! ## Regex heuristics of the Java flat-layout repair

`re.search(r"public\s+class\s+(\w+)", content)` and
`re.search(r"^\s*package\s+([\w.]+);", content, re.MULTILINE)`
(main.py 251, 258), embedded for ASCII source text: `\s` is the regex
whitespace class, `\w` is `[A-Za-z0-9_]`, and search scans candidate
start positions left to right.  No pattern element here needs
backtracking: each greedy piece is followed by a character disjoint from
its class. -/

/-- The regex `\s` class (ASCII part). -/
def isReSpace (c : Char) : Bool :=
  c = ' ' ∨ c = '\t' ∨ c = '\n' ∨ c = '\r' ∨ c = '\x0b' ∨ c = '\x0c'

/-- The regex `\w` class (ASCII part). -/
def isWordChar (c : Char) : Bool :=
  c.isAlphanum || c = '_'

/-- Strip a literal prefix, or fail. -/
def stripPrefixL : List Char → List Char → Option (List Char)
  | [], cs => some cs
  | _ :: _, [] => none
  | p :: ps, c :: cs => if p = c then stripPrefixL ps cs else none

/-- Match `\s+` (at least one whitespace character, maximal munch). -/
def ws1 : List Char → Option (List Char)
  | [] => none
  | c :: rest => if isReSpace c then some (rest.dropWhile isReSpace) else none

/-- Try to match `public\s+class\s+(\w+)` at the head of `cs`,
returning the capture. -/
def matchPublicClassAt (cs : List Char) : Option String := do
  let cs ← stripPrefixL "public".toList cs
  let cs ← ws1 cs
  let cs ← stripPrefixL "class".toList cs
  let cs ← ws1 cs
  let w := cs.takeWhile isWordChar
  if w.isEmpty then none else some (String.mk w)

/-- `re.search`: try every start position, leftmost match wins. -/
def searchPublicClass : List Char → Option String
  | [] => none
  | c :: cs =>
    match matchPublicClassAt (c :: cs) with
    | some w => some w
    | none => searchPublicClass cs

/-- The first `public class <Name>` declared in `content`, if any. -/
def publicClassOf (content : String) : Option String :=
  searchPublicClass content.toList

/-- Try to match `\s*package\s+([\w.]+);` at an anchor position. -/
def matchPackageAt (cs : List Char) : Option String := do
  let cs := cs.dropWhile isReSpace
  let cs ← stripPrefixL "package".toList cs
  let cs ← ws1 cs
  let w := cs.takeWhile (fun c => isWordChar c || c = '.')
  let rest := cs.dropWhile (fun c => isWordChar c || c = '.')
  if w.isEmpty then none
  else
    match rest with
    | ';' :: _ => some (String.mk w)
    | _ => none

/-- Anchors after the start: in `re.MULTILINE`, `^` also matches right
after each newline. -/
def searchPackageAux : List Char → Option String
  | [] => none
  | '\n' :: rest =>
    (match matchPackageAt rest with
     | some w => some w
     | none => searchPackageAux rest)
  | _ :: rest => searchPackageAux rest

/-- The first `package <dotted.path>;` declaration in `content`
(multiline-anchored), if any. -/
def packageOf (content : String) : Option String :=
  match matchPackageAt content.toList with
  | some w => some w
  | none => searchPackageAux content.toList

/-- `pathlib.PurePath.stem`: the file name without its last suffix. -/
def stemOf (name : String) : String :=
  let cs := name.toList
  match cs.reverse.findIdx? (fun c => c = '.') with
  | none => name
  | some i => if i + 1 = cs.length then name else String.mk (cs.take (cs.length - 1 - i))

/-- `package_name.replace(".", "/")`. -/
def dotsToSlashes (s : String) : String :=
  String.mk (s.toList.map (fun c => if c = '.' then '/' else c))

/-! ## Project mode (`run_project_in_docker`, main.py 187-354) -/

/-- Oracle for a project request. -/
structure ProjEnv where
  /-- outcome of `client.images.get` -/
  imgGet : ImgGet
  /-- whether `client.images.pull` succeeds when the image is absent -/
  pullOk : Bool
  /-- `str(pull_error)` when the pull fails -/
  pullError : String
  /-- whether saving the uploaded zip to disk succeeds -/
  zipSaveOk : Bool
  /-- whether `zipfile.ZipFile(...).extractall` succeeds -/
  zipValid : Bool
  /-- the extracted files: workspace-relative path to content -/
  fs : List (String × String)
  /-- the extracted directories (workspace-relative paths) -/
  dirs : List String
  /-- whether per-file processing (read/rename/move) succeeds during
  Java flat-layout repair -/
  readOk : String → Bool
  /-- whether `client.containers.run` succeeds -/
  runOk : Bool
  /-- whether `container.wait(timeout=600)` returns within the bound -/
  waitCompletes : Bool
  /-- the `StatusCode` entry of the wait result, when present -/
  statusCode : Option Int
  /-- the combined stdout/stderr log of the container -/
  logs : String
  /-- `str(e)` for whichever unexpected exception the environment threw -/
  excMsg : String

/-- `(temp_dir / p).exists()` over the extracted tree. -/
def pathExists (env : ProjEnv) (p : String) : Bool :=
  env.dirs.contains p || (env.fs.lookup p).isSome

/-- `str.startswith` (computable by kernel reduction). -/
def strStartsWith (s p : String) : Bool :=
  p.toList.isPrefixOf s.toList

/-- `str.endswith` (computable by kernel reduction). -/
def strEndsWith (s p : String) : Bool :=
  p.toList.reverse.isPrefixOf s.toList.reverse

/-- A workspace-root entry (no directory separator in its path). -/
def isRootEntry (p : String) : Bool :=
  !(p.toList.contains '/')

/-- `temp_dir.glob("test_*.py")` or `temp_dir.glob("*_test.py")`. -/
def matchesTestGlob (p : String) : Bool :=
  (strStartsWith p "test_" && strEndsWith p ".py") || strEndsWith p "_test.py"

/-- One step of the Java flat-layout repair loop (main.py 246-268):
read the file, detect its public class to pick the target file name,
detect its package to pick the target directory; a per-file failure
(modelled by `readOk`) skips the file. -/
def processJavaFile (readOk : String → Bool) (name content : String) : Option JavaMove :=
  if readOk name then
    let target_filename :=
      match publicClassOf content with
      | some detected => if stemOf name ≠ detected then detected ++ ".java" else name
      | none => name
    match packageOf content with
    | some pkg => some ⟨name, "src/main/java/" ++ dotsToSlashes pkg, target_filename⟩
    | none => some ⟨name, "src/main/java", target_filename⟩
  else none

/-- The Java flat-layout repair over all root-level `.java` files. -/
def javaRestructure (env : ProjEnv) : List JavaMove :=
  (env.fs.filter (fun e => isRootEntry e.1 && strEndsWith e.1 ".java")).filterMap
    (fun e => processJavaFile env.readOk e.1 e.2)

/-- `requirements.txt` or `requirement.txt` at the root, first match
(main.py 271-273). -/
def pythonReqFile (env : ProjEnv) : Option String :=
  if pathExists env "requirements.txt" then some "requirements.txt"
  else if pathExists env "requirement.txt" then some "requirement.txt"
  else none

/-- The install step prepended when a requirements file exists and is
non-empty (main.py 275-277). -/
def pythonInstallCmd (env : ProjEnv) : String :=
  match pythonReqFile env with
  | some r =>
    if 0 < ((env.fs.lookup r).getD "").length then "pip install -r " ++ r ++ " && "
    else ""
  | none => ""

/-- The synthesized smoke-test module (main.py 281-303), verbatim. -/
def smokeTestStr : String :=
  "\n"
  ++ "import unittest\n"
  ++ "import os\n"
  ++ "import importlib\n"
  ++ "import sys\n"
  ++ "from unittest.mock import MagicMock\n"
  ++ "sys.modules[\"tkinter\"] = MagicMock()\n"
  ++ "sys.modules[\"turtle\"] = MagicMock()\n"
  ++ "sys.modules[\"pygame\"] = MagicMock()\n"
  ++ "class TestProjectStructure(unittest.TestCase):\n"
  ++ "    def test_files_importable(self):\n"
  ++ "        print(\"\\n--- Checking Project Files ---\")\n"
  ++ "        files = [f[:-3] for f in os.listdir(\x27.\x27) if f.endswith(\x27.py\x27) and f != \x27test_smoke_generated.py\x27]\n"
  ++ "        if not files: self.fail(\"No Python files found!\")\n"
  ++ "        for module_name in files:\n"
  ++ "            try:\n"
  ++ "                importlib.import_module(module_name)\n"
  ++ "                print(f\"[OK] Loaded: \x7bmodule_name\x7d.py\") \n"
  ++ "            except Exception as e:\n"
  ++ "                print(f\"[FAIL] Failed: \x7bmodule_name\x7d.py\")\n"
  ++ "                self.fail(f\"Error importing \x7bmodule_name\x7d.py: \x7be\x7d\")\n"
  ++ "if __name__ == \x27__main__\x27: unittest.main()\n"

/-- The injected `package.json` for static front-end projects
(main.py 314), verbatim. -/
def pkgJsonStr : String :=
  "\x7b\"name\": \"frontend-test\",\"version\": \"1.0.0\",\"scripts\": \x7b\"test\": \"node test_runner.js\"\x7d,\"dependencies\": \x7b\"jsdom\": \"^24.0.0\"\x7d\x7d"

/-- The injected front-end test harness (main.py 316), verbatim. -/
def testRunnerStr : String :=
  "const fs = require(\x27fs\x27); const jsdom = require(\"jsdom\"); const \x7b JSDOM \x7d = jsdom; try \x7b const html = fs.readFileSync(\x27index.html\x27, \x27utf8\x27); const scriptContent = fs.readFileSync(\x27script.js\x27, \x27utf8\x27); const dom = new JSDOM(html, \x7b runScripts: \"dangerously\", resources: \"usable\" \x7d); const \x7b window \x7d = dom; window.eval(scriptContent); console.log(\"[OK] script.js loaded successfully.\"); console.log(\"[OK] DOM initialized successfully.\"); \x7d catch (error) \x7b console.error(\"[FAIL] Test Failed:\", error); process.exit(1); \x7d"

/-- What the per-language normalization step decides. -/
inductive NormOutcome where
  | invalid (r : TestResultV)
  | nameErr
  | proceed (cmds : String) (written : List (String × String)) (moves : List JavaMove)

/-- The per-language project normalization (main.py 237-319). -/
def normalizeProject (env : ProjEnv) (language project_commands0 : String) : NormOutcome :=
  if language = "java" then
    if pathExists env "pom.xml" = false then
      .invalid ⟨false, "Invalid Project",
        "No \x27pom.xml\x27 found. Please include a pom.xml file."⟩
    else if pathExists env "src/main/java" = false then
      .proceed project_commands0 [] (javaRestructure env)
    else
      .proceed project_commands0 [] []
  else if language = "python" then
    if (env.fs.any fun e => isRootEntry e.1 && matchesTestGlob e.1) = false then
      .proceed ("pip install pytest && " ++ pythonInstallCmd env ++ "pytest test_smoke_generated.py")
        [("test_smoke_generated.py", smokeTestStr)] []
    else
      .proceed ("pip install pytest && " ++ pythonInstallCmd env ++ "pytest") [] []
  else
    -- is_frontend_project := index.html and script.js both present
    if (pathExists env "index.html" && pathExists env "script.js"
        && !(pathExists env "package.json")) = true then
      .proceed project_commands0 [("package.json", pkgJsonStr), ("test_runner.js", testRunnerStr)] []
    else if pathExists env "package.json" = false then
      -- `return TestResult(..., output=error_msg)` references the
      -- undefined name `error_msg`: a `NameError` is raised here
      .nameErr
    else
      .proceed project_commands0 [] []

/-- The body of `run_project_in_docker` after language dispatch
(main.py 204-354). -/
def runProjectWith (env : ProjEnv) (language _image_name project_commands0 : String) :
    RunTrace :=
  match env.imgGet with
  | .otherError =>
    noResTrace (.raised (.httpExc 500 ("Docker error: " ++ env.excMsg)))
  | .notFound =>
    if env.pullOk then
      noResTrace (.ok ⟨false, "Downloading Environment...",
        "The " ++ language ++
          " project environment was not found. The download has completed. Please re-upload the project."⟩)
    else
      noResTrace (.ok ⟨false, "Failed to Download Environment",
        "Failed to pull Docker image. Error: " ++ env.pullError⟩)
  | .found =>
    -- the workspace directory is created here
    if env.zipSaveOk = false then
      -- the `HTTPException(500, ...)` raised while saving the zip is
      -- itself caught by the surrounding `except Exception`
      { out := .ok ⟨false, "Docker Execution Error",
          "An unexpected error occurred: " ++ env.excMsg⟩,
        wsCreated := 1, wsRemoved := 1, handleCreated := 0, handleRemoved := 0,
        filesWritten := [], command := none, javaMoves := [] }
    else if env.zipValid = false then
      { out := .ok ⟨false, "ZIP Error", "Invalid .zip file. Error: " ++ env.excMsg⟩,
        wsCreated := 1, wsRemoved := 1, handleCreated := 0, handleRemoved := 0,
        filesWritten := [], command := none, javaMoves := [] }
    else
      match normalizeProject env language project_commands0 with
      | .invalid r =>
        { out := .ok r,
          wsCreated := 1, wsRemoved := 1, handleCreated := 0, handleRemoved := 0,
          filesWritten := [], command := none, javaMoves := [] }
      | .nameErr =>
        { out := .ok ⟨false, "Docker Execution Error",
            "An unexpected error occurred: name \x27error_msg\x27 is not defined"⟩,
          wsCreated := 1, wsRemoved := 1, handleCreated := 0, handleRemoved := 0,
          filesWritten := [], command := none, javaMoves := [] }
      | .proceed cmds written moves =>
        if env.runOk = false then
          { out := .ok ⟨false, "Docker Execution Error",
              "An unexpected error occurred: " ++ env.excMsg⟩,
            wsCreated := 1, wsRemoved := 1, handleCreated := 0, handleRemoved := 0,
            filesWritten := written, command := none, javaMoves := moves }
        else if env.waitCompletes = false then
          { out := .ok ⟨false, "Project execution timed out (10 minutes).",
              "Timeout: The project run exceeded the 10-minute limit."⟩,
            wsCreated := 1, wsRemoved := 1, handleCreated := 1, handleRemoved := 1,
            filesWritten := written, command := some ["sh", "-c", cmds], javaMoves := moves }
        else if env.statusCode.getD 1 = 0 then
          { out := .ok ⟨true, "All project tests passed!", env.logs⟩,
            wsCreated := 1, wsRemoved := 1, handleCreated := 1, handleRemoved := 1,
            filesWritten := written, command := some ["sh", "-c", cmds], javaMoves := moves }
        else
          { out := .ok ⟨false, "Project Tests Failed", env.logs⟩,
            wsCreated := 1, wsRemoved := 1, handleCreated := 1, handleRemoved := 1,
            filesWritten := written, command := some ["sh", "-c", cmds], javaMoves := moves }

/-- `run_project_in_docker` (main.py 187-354): language dispatch, then
the shared body.  The unused `config_file` assignments of the source are
dropped. -/
def run_project_in_docker (env : ProjEnv) (language : String) : RunTrace :=
  if language = "javascript" then
    runProjectWith env language ((DOCKER_IMAGES.lookup "javascript").getD "")
      "npm install && npm test"
  else if language = "python" then
    runProjectWith env language ((DOCKER_IMAGES.lookup "python").getD "")
      "pip install pytest && if [ -f requirements.txt ]; then pip install -r requirements.txt; fi && pytest"
  else if language = "java" then
    runProjectWith env language ((DOCKER_IMAGES.lookup "java-project").getD "")
      "mvn test"
  else
    noResTrace (.raised (.httpExc 400 "Unsupported project language."))

/-- The spec-side verdict of a finished request (`none` when an
exception escaped instead of a result being returned). -/
def traceVerdict (t : RunTrace) : Option Verdict :=
  match t.out with
  | .ok r => some (verdictOf r)
  | .raised _ => none

/-! ## Sample environments for witnesses and counterexamples -/

/-- A healthy single-file environment: image present, staging, launch
and wait all succeed, exit code 0. -/
def okEnvS : ExecEnv :=
  { imgGet := .found, pullOk := true, pullError := "", stageOk := true,
    runOk := true, waitCompletes := true, statusCode := some 0,
    logs := "2 tests passed", excMsg := "" }

/-- A single-file environment whose image is locally absent and whose
pull succeeds. -/
def pullEnvS : ExecEnv :=
  { okEnvS with imgGet := .notFound }

/-- A single-file environment whose image is locally absent and whose
pull fails. -/
def pullFailEnvS : ExecEnv :=
  { okEnvS with
      imgGet := .notFound
      pullOk := false
      pullError := "registry unreachable" }

/-- A healthy Java project environment with a `pom.xml` and a flat
layout. -/
def flatJavaEnvP : ProjEnv :=
  { imgGet := .found, pullOk := true, pullError := "", zipSaveOk := true,
    zipValid := true,
    fs := [("pom.xml", "<project/>"),
           ("Foo.java", "package com.acme.util;\npublic class Bar \x7b \x7d"),
           ("Plain.java", "public class Plain \x7b \x7d")],
    dirs := [], readOk := fun _ => true, runOk := true, waitCompletes := true,
    statusCode := some 0, logs := "BUILD SUCCESS", excMsg := "" }

/-- A Java project environment with no `pom.xml` at the root. -/
def noPomEnvP : ProjEnv :=
  { flatJavaEnvP with fs := [("Main.java", "public class Main \x7b \x7d")] }

/-- A Python project environment with no test files and a non-empty
requirements file. -/
def pyEnvP : ProjEnv :=
  { flatJavaEnvP with
      fs := [("main.py", "print(1)"), ("requirements.txt", "requests")] }

/-- A JavaScript project environment with no `package.json` and no
static front-end shape. -/
def jsBadEnvP : ProjEnv :=
  { flatJavaEnvP with fs := [("app.js", "console.log(1)")] }

/-- Substring test: does `hay` contain `needle` as a contiguous
substring? -/
def strContains (needle hay : String) : Bool :=
  hay.toList.tails.any (fun t => needle.toList.isPrefixOf t)

example : sanitize_java_code "x" = "\nx" := by decide
example : sanitize_java_code (sanitize_java_code "x") = "\n\nx" := by decide
example :
    sanitize_java_code "class A\nimport a.b;\npackage p;\nimport a.b;\nend"
      = "import a.b;\n\nclass A\nend" := by decide

/-! ### Properties of `dedupFirst` -/

theorem dedupFirstAux_sublist {α : Type} [DecidableEq α] (seen : List α) :
    ∀ l : List α, (dedupFirstAux seen l).Sublist l := by
  intro l
  induction l generalizing seen with
  | nil => simp [dedupFirstAux]
  | cons x xs ih =>
    simp only [dedupFirstAux]
    split
    · exact (ih seen).trans (List.sublist_cons_self x xs)
    · exact (ih (x :: seen)).cons₂ x

theorem mem_dedupFirstAux {α : Type} [DecidableEq α] {a : α} (seen : List α) :
    ∀ l : List α, a ∈ dedupFirstAux seen l ↔ a ∈ l ∧ a ∉ seen := by
  intro l
  induction l generalizing seen with
  | nil => simp [dedupFirstAux]
  | cons x xs ih =>
    simp only [dedupFirstAux]
    split
    · rename_i hx
      rw [ih seen]
      constructor
      · rintro ⟨h1, h2⟩
        exact ⟨List.mem_cons_of_mem _ h1, h2⟩
      · rintro ⟨h1, h2⟩
        rcases List.mem_cons.mp h1 with rfl | h1
        · exact absurd hx h2
        · exact ⟨h1, h2⟩
    · rename_i hx
      simp only [List.mem_cons, ih (x :: seen)]
      constructor
      · rintro (rfl | ⟨h1, h2⟩)
        · exact ⟨Or.inl rfl, hx⟩
        · exact ⟨Or.inr h1, fun hs => h2 (Or.inr hs)⟩
      · rintro ⟨rfl | h1, h2⟩
        · exact Or.inl rfl
        · by_cases hax : a = x
          · exact Or.inl hax
          · exact Or.inr ⟨h1, fun hs => hs.elim hax h2⟩

theorem nodup_dedupFirstAux {α : Type} [DecidableEq α] (seen : List α) :
    ∀ l : List α, (dedupFirstAux seen l).Nodup := by
  intro l
  induction l generalizing seen with
  | nil => simp [dedupFirstAux]
  | cons x xs ih =>
    simp only [dedupFirstAux]
    split
    · exact ih seen
    · refine List.nodup_cons.mpr ⟨fun hmem => ?_, ih (x :: seen)⟩
      rcases (mem_dedupFirstAux _ _).mp hmem with ⟨_, hns⟩
      exact hns (List.mem_cons_self x seen)

theorem dedupFirst_sublist {α : Type} [DecidableEq α] (l : List α) :
    (dedupFirst l).Sublist l :=
  dedupFirstAux_sublist [] l

theorem mem_dedupFirst {α : Type} [DecidableEq α] {a : α} (l : List α) :
    a ∈ dedupFirst l ↔ a ∈ l := by
  rw [dedupFirst, mem_dedupFirstAux]
  simp

theorem nodup_dedupFirst {α : Type} [DecidableEq α] (l : List α) :
    (dedupFirst l).Nodup :=
  nodup_dedupFirstAux [] l

theorem dedupFirstAux_eq_self {α : Type} [DecidableEq α] :
    ∀ (l : List α), l.Nodup → ∀ seen, (∀ a ∈ l, a ∉ seen) → dedupFirstAux seen l = l := by
  intro l
  induction l with
  | nil => intro _ seen _; rfl
  | cons x xs ih =>
    intro hnd seen hds
    have hx : x ∉ seen := hds x (List.mem_cons_self x xs)
    simp only [dedupFirstAux, if_neg hx]
    congr 1
    refine ih (List.nodup_cons.mp hnd).2 (x :: seen) (fun a ha hmem => ?_)
    rcases List.mem_cons.mp hmem with rfl | hmem
    · exact (List.nodup_cons.mp hnd).1 ha
    · exact hds a (List.mem_cons_of_mem _ ha) hmem

theorem dedupFirst_eq_self {α : Type} [DecidableEq α] {l : List α} (h : l.Nodup) :
    dedupFirst l = l :=
  dedupFirstAux_eq_self l h [] (by simp)

theorem splitlinesL_crlf (rest : List Char) :
    splitlinesL ('\r' :: '\n' :: rest) = [] :: splitlinesL rest := by
  rw [splitlinesL.eq_2, if_pos rfl]

theorem splitlinesL_cr_only : splitlinesL ['\r'] = [[]] := by
  rw [splitlinesL.eq_3, if_pos rfl]

theorem splitlinesL_cr_cons {c2 : Char} (rest2 : List Char) (h : ¬ c2 = '\n') :
    splitlinesL ('\r' :: c2 :: rest2) = [] :: splitlinesL (c2 :: rest2) := by
  rw [splitlinesL.eq_4 _ _ _ (fun hn => h hn), if_pos rfl]

theorem splitlinesL_break {c : Char} (rest : List Char) (hcr : ¬ c = '\r')
    (hbr : isLineBreak c = true) :
    splitlinesL (c :: rest) = [] :: splitlinesL rest := by
  rcases rest with _ | ⟨c2, r2⟩
  · rw [splitlinesL.eq_3, if_neg hcr, if_pos hbr]
  · by_cases h2 : c2 = '\n'
    · subst h2; rw [splitlinesL.eq_2, if_neg hcr, if_pos hbr]
    · rw [splitlinesL.eq_4 _ _ _ (fun hn => h2 hn), if_neg hcr, if_pos hbr]

theorem splitlinesL_noBreakChar {c : Char} (rest : List Char)
    (hbr : isLineBreak c = false) :
    splitlinesL (c :: rest) = consHead c (splitlinesL rest) := by
  have hcr : ¬ c = '\r' := fun hr => by simp [hr, isLineBreak] at hbr
  have hbr' : ¬ isLineBreak c = true := by simp [hbr]
  rcases rest with _ | ⟨c2, r2⟩
  · rw [splitlinesL.eq_3, if_neg hcr, if_neg hbr']
  · by_cases h2 : c2 = '\n'
    · subst h2; rw [splitlinesL.eq_2, if_neg hcr, if_neg hbr']
    · rw [splitlinesL.eq_4 _ _ _ (fun hn => h2 hn), if_neg hcr, if_neg hbr']

theorem splitlinesL_noBreak :
    ∀ x : List Char, (∀ c ∈ x, isLineBreak c = false) →
      splitlinesL x = if x = [] then [] else [x] := by
  intro x
  induction x with
  | nil => intro _; rfl
  | cons c cs ih =>
    intro h
    have hc : isLineBreak c = false := h c (List.mem_cons_self c cs)
    have hcs := ih (fun d hd => h d (List.mem_cons_of_mem _ hd))
    rw [splitlinesL_noBreakChar cs hc, hcs]
    by_cases hnil : cs = []
    · subst hnil; rfl
    · simp [if_neg hnil, consHead]

theorem splitlinesL_append_newline :
    ∀ (x t : List Char), (∀ c ∈ x, isLineBreak c = false) →
      splitlinesL (x ++ '\n' :: t) = x :: splitlinesL t := by
  intro x
  induction x with
  | nil =>
    intro t _
    exact splitlinesL_break t (by decide) (by decide)
  | cons c cs ih =>
    intro t h
    have hc : isLineBreak c = false := h c (List.mem_cons_self c cs)
    rw [List.cons_append, splitlinesL_noBreakChar _ hc,
      ih t (fun d hd => h d (List.mem_cons_of_mem _ hd))]
    rfl

theorem splitlinesL_joinNlL :
    ∀ ls : List (List Char), (∀ l ∈ ls, ∀ c ∈ l, isLineBreak c = false) →
      splitlinesL (joinNlL ls) = dropTrailEmpty ls := by
  intro ls
  induction ls with
  | nil => intro _; rfl
  | cons x xs ih =>
    intro h
    cases xs with
    | nil =>
      have := splitlinesL_noBreak x (h x (List.mem_cons_self x []))
      simpa [joinNlL, dropTrailEmpty] using this
    | cons y ys =>
      have hx : ∀ c ∈ x, isLineBreak c = false := h x (List.mem_cons_self x (y :: ys))
      have : joinNlL (x :: y :: ys) = x ++ '\n' :: joinNlL (y :: ys) := rfl
      rw [this, splitlinesL_append_newline x _ hx,
        ih (fun l hl => h l (List.mem_cons_of_mem _ hl))]
      rfl

theorem mem_dropTrailEmpty :
    ∀ (ls : List (List Char)) (l : List Char), l ∈ dropTrailEmpty ls → l ∈ ls := by
  intro ls
  induction ls with
  | nil => intro l hl; simp [dropTrailEmpty] at hl
  | cons x xs ih =>
    intro l hl
    cases xs with
    | nil =>
      simp only [dropTrailEmpty] at hl
      split at hl
      · simp at hl
      · simpa using hl
    | cons y ys =>
      simp only [dropTrailEmpty, List.mem_cons] at hl
      rcases hl with rfl | hl
      · exact List.mem_cons_self _ _
      · exact List.mem_cons_of_mem _ (ih l hl)

theorem filter_dropTrailEmpty (p : List Char → Bool) (hp : p [] = false) :
    ∀ ls : List (List Char), (dropTrailEmpty ls).filter p = ls.filter p := by
  intro ls
  induction ls with
  | nil => rfl
  | cons x xs ih =>
    cases xs with
    | nil =>
      simp only [dropTrailEmpty]
      split
      · rename_i hx; subst hx; simp [hp]
      · rfl
    | cons y ys =>
      simp only [dropTrailEmpty, List.filter_cons, ih]

/-! ### Line-classification facts -/

theorem import_not_package {l : List Char} (h : isImportLineL l = true) :
    isPackageLineL l = false := by
  unfold isImportLineL at h
  unfold isPackageLineL
  rcases hsl : stripL l with _ | ⟨c, cs⟩
  · rw [hsl] at h
    simp [List.isPrefixOf] at h
  · rw [hsl] at h
    rcases Bool.and_eq_true_iff.mp h with ⟨h1, _⟩
    have hc : c = 'i' := by
      have : (('i' == c) && List.isPrefixOf "mport ".toList cs) = true := h1
      rcases Bool.and_eq_true_iff.mp this with ⟨hi, _⟩
      exact (beq_iff_eq.mp hi).symm
    subst hc
    simp [List.isPrefixOf]

theorem isImportLineL_nil : isImportLineL [] = false := by decide

theorem isPackageLineL_nil : isPackageLineL [] = false := by decide

/-- Lines produced by `splitlinesL` contain no break characters. -/
theorem noBreak_splitlinesL :
    ∀ (cs : List Char), ∀ l ∈ splitlinesL cs, ∀ c ∈ l, isLineBreak c = false := by
  intro cs
  induction cs using splitlinesL.induct with
  | case1 => intro l hl; simp [splitlinesL] at hl
  | case2 rest2 ih =>
    intro l hl d hd
    rw [splitlinesL_crlf] at hl
    rcases List.mem_cons.mp hl with rfl | hl
    · simp at hd
    · exact ih l hl d hd
  | case3 =>
    intro l hl d hd
    rw [splitlinesL_cr_only] at hl
    rcases List.mem_cons.mp hl with rfl | hl
    · simp at hd
    · simp at hl
  | case4 c2 rest2 hne ih =>
    intro l hl d hd
    rw [splitlinesL_cr_cons rest2 (fun h => hne h)] at hl
    rcases List.mem_cons.mp hl with rfl | hl
    · simp at hd
    · exact ih l hl d hd
  | case5 c rest hcr hbr ih =>
    intro l hl d hd
    rw [splitlinesL_break rest hcr (by simpa using hbr)] at hl
    rcases List.mem_cons.mp hl with rfl | hl
    · simp at hd
    · exact ih l hl d hd
  | case6 c rest hcr hbr ih =>
    intro l hl d hd
    rw [splitlinesL_noBreakChar rest (by simpa using hbr)] at hl
    rcases hc : splitlinesL rest with _ | ⟨l0, ls⟩ <;> rw [hc] at hl
    · simp only [consHead, List.mem_singleton] at hl
      subst hl
      rcases List.mem_singleton.mp hd with rfl
      simp at hbr
      exact hbr
    · simp only [consHead, List.mem_cons] at hl
      rcases hl with rfl | hl
      · rcases List.mem_cons.mp hd with rfl | hd
        · simpa using hbr
        · exact ih l0 (hc ▸ List.mem_cons_self l0 ls) d hd
      · exact ih l (hc ▸ List.mem_cons_of_mem l0 hl) d hd

/-! ### The sanitizer's output, line by line -/

theorem sanitize_java_code_toList (s : String) :
    (sanitize_java_code s).toList
      = joinNlL (dedupFirst (javaImportLines s) ++ [[]] ++ javaBodyLines s) := rfl

theorem noBreak_sanitize_parts (s : String) :
    ∀ l ∈ dedupFirst (javaImportLines s) ++ [[]] ++ javaBodyLines s,
      ∀ c ∈ l, isLineBreak c = false := by
  intro l hl c hc
  rcases List.mem_append.mp hl with hl | hl
  · rcases List.mem_append.mp hl with hl | hl
    · exact noBreak_splitlinesL s.toList l
        (List.mem_filter.mp ((mem_dedupFirst _).mp hl)).1 c hc
    · rcases List.mem_singleton.mp hl with rfl
      simp at hc
  · exact noBreak_splitlinesL s.toList l (List.mem_filter.mp hl).1 c hc

/-- The lines of the sanitizer's output are exactly the deduplicated
imports followed by a blank separator line and the body — except that a
single trailing empty line is absorbed by the join/split convention. -/
theorem splitlinesL_sanitize (s : String) :
    splitlinesL (sanitize_java_code s).toList
      = dropTrailEmpty (dedupFirst (javaImportLines s) ++ [[]] ++ javaBodyLines s) := by
  rw [sanitize_java_code_toList, splitlinesL_joinNlL _ (noBreak_sanitize_parts s)]

/-- The import lines of the sanitizer's output are exactly the
deduplicated import lines of the input. -/
theorem imports_of_sanitize (s : String) :
    (splitlinesL (sanitize_java_code s).toList).filter isImportLineL
      = dedupFirst (javaImportLines s) := by
  rw [splitlinesL_sanitize, filter_dropTrailEmpty _ isImportLineL_nil,
    List.filter_append, List.filter_append]
  have h1 : (dedupFirst (javaImportLines s)).filter isImportLineL
      = dedupFirst (javaImportLines s) := by
    refine List.filter_eq_self.mpr (fun l hl => ?_)
    exact (List.mem_filter.mp ((mem_dedupFirst _).mp hl)).2
  have h2 : ([([] : List Char)]).filter isImportLineL = [] := by
    simp [isImportLineL_nil]
  have h3 : (javaBodyLines s).filter isImportLineL = [] := by
    rw [List.filter_eq_nil_iff]
    intro l hl h
    have := (List.mem_filter.mp hl).2
    simp [h] at this
  rw [h1, h2, h3, List.append_nil, List.append_nil]

/-- No package declaration survives the sanitizer. -/
theorem no_package_in_sanitize (s : String) :
    ∀ l ∈ splitlinesL (sanitize_java_code s).toList, isPackageLineL l = false := by
  intro l hl
  rw [splitlinesL_sanitize] at hl
  have hl' := mem_dropTrailEmpty _ l hl
  rcases List.mem_append.mp hl' with h | h
  · rcases List.mem_append.mp h with h | h
    · exact import_not_package (List.mem_filter.mp ((mem_dedupFirst _).mp h)).2
    · rcases List.mem_singleton.mp h with rfl
      exact isPackageLineL_nil
  · have := (List.mem_filter.mp h).2
    rcases Bool.and_eq_true_iff.mp this with ⟨_, h2⟩
    simpa using h2

example : publicClassOf "package a;\npublic   class Foo extends T" = some "Foo" := by decide
example : publicClassOf "class Foo" = none := by decide
example : packageOf "  package com.acme.util;\nclass X" = some "com.acme.util" := by decide
example : packageOf "x package a.b;" = none := by decide
example : packageOf "y\n  package a.b;" = some "a.b" := by decide

example : stemOf "Foo.java" = "Foo" := by decide
example : stemOf "a.b.java" = "a.b" := by decide
example : stemOf ".java" = ".java" := by decide

/-! ## Execution-path characterizations (shared helper lemmas) -/

/-- Once past the image check, staging and launch, `run_in_docker`
either times out or classifies by the exit code alone. -/
theorem run_in_docker_launched (env : ExecEnv) (language code test_code img : String)
    (cmd : List String)
    (h1 : DOCKER_IMAGES.lookup language = some img)
    (h2 : RUN_COMMANDS.lookup language = some cmd)
    (h3 : env.imgGet = .found) (h4 : env.stageOk = true) (h5 : env.runOk = true) :
    run_in_docker env language code test_code =
      if env.waitCompletes = false then
        ⟨.ok ⟨false, "Code execution timed out (5 minutes).",
          "Timeout: The test run exceeded the 5-minute limit."⟩,
         1, 1, 1, 1, stagedFiles language code test_code, some cmd, []⟩
      else if env.statusCode.getD 1 = 0 then
        ⟨.ok ⟨true, "All tests passed!", env.logs⟩,
         1, 1, 1, 1, stagedFiles language code test_code, some cmd, []⟩
      else
        ⟨.ok ⟨false, "Tests Failed or Code Error", env.logs⟩,
         1, 1, 1, 1, stagedFiles language code test_code, some cmd, []⟩ := by
  simp only [run_in_docker, h1, h2, h3, h4, h5]
  norm_num

/-- If a container was launched in single-file mode, the environment
passed the image check, staging and launch. -/
theorem run_in_docker_handle_inv (env : ExecEnv) (language code test_code : String)
    (h : (run_in_docker env language code test_code).handleCreated = 1) :
    ∃ img cmd, DOCKER_IMAGES.lookup language = some img ∧
      RUN_COMMANDS.lookup language = some cmd ∧
      env.imgGet = .found ∧ env.stageOk = true ∧ env.runOk = true := by
  rcases h1 : DOCKER_IMAGES.lookup language with _ | img
  · simp only [run_in_docker, h1, noResTrace] at h
    exact absurd h (by norm_num)
  · rcases h2 : RUN_COMMANDS.lookup language with _ | cmd
    · simp only [run_in_docker, h1, h2, noResTrace] at h
      exact absurd h (by norm_num)
    · rcases h3 : env.imgGet with _ | _ | _
      · -- found
        rcases h4 : env.stageOk with _ | _
        · simp only [run_in_docker, h1, h2, h3, h4, noResTrace] at h
          norm_num at h
        · rcases h5 : env.runOk with _ | _
          · simp only [run_in_docker, h1, h2, h3, h4, h5, noResTrace] at h
            norm_num at h
          · exact ⟨img, cmd, rfl, rfl, rfl, rfl, rfl⟩
      · -- notFound
        rcases h4 : env.pullOk with _ | _ <;>
          simp only [run_in_docker, h1, h2, h3, h4, noResTrace] at h <;>
          exact absurd h (by norm_num)
      · -- otherError
        simp only [run_in_docker, h1, h2, h3, noResTrace] at h
        exact absurd h (by norm_num)

/-- Once past the image check, zip staging and normalization,
`runProjectWith` either times out or classifies by the exit code
alone. -/
theorem runProjectWith_launched (env : ProjEnv) (language img pc0 cmds : String)
    (written : List (String × String)) (moves : List JavaMove)
    (h3 : env.imgGet = .found) (hsave : env.zipSaveOk = true) (hzip : env.zipValid = true)
    (hnorm : normalizeProject env language pc0 = .proceed cmds written moves)
    (h5 : env.runOk = true) :
    runProjectWith env language img pc0 =
      if env.waitCompletes = false then
        ⟨.ok ⟨false, "Project execution timed out (10 minutes).",
          "Timeout: The project run exceeded the 10-minute limit."⟩,
         1, 1, 1, 1, written, some ["sh", "-c", cmds], moves⟩
      else if env.statusCode.getD 1 = 0 then
        ⟨.ok ⟨true, "All project tests passed!", env.logs⟩,
         1, 1, 1, 1, written, some ["sh", "-c", cmds], moves⟩
      else
        ⟨.ok ⟨false, "Project Tests Failed", env.logs⟩,
         1, 1, 1, 1, written, some ["sh", "-c", cmds], moves⟩ := by
  simp only [runProjectWith, h3, hsave, hzip, hnorm, h5]
  norm_num

theorem run_project_javascript (env : ProjEnv) :
    run_project_in_docker env "javascript"
      = runProjectWith env "javascript" "node:20-slim" "npm install && npm test" := rfl

theorem run_project_python (env : ProjEnv) :
    run_project_in_docker env "python"
      = runProjectWith env "python" "python:3.11-slim"
          "pip install pytest && if [ -f requirements.txt ]; then pip install -r requirements.txt; fi && pytest" := rfl

theorem run_project_java (env : ProjEnv) :
    run_project_in_docker env "java"
      = runProjectWith env "java" "maven:3.9-eclipse-temurin-17" "mvn test" := rfl

/-- If a container was launched by `runProjectWith`, the environment
passed the image check, zip staging and normalization. -/
theorem runProjectWith_handle_inv (env : ProjEnv) (language img pc0 : String)
    (h : (runProjectWith env language img pc0).handleCreated = 1) :
    env.imgGet = .found ∧ env.zipSaveOk = true ∧ env.zipValid = true ∧
      (∃ cmds written moves,
        normalizeProject env language pc0 = .proceed cmds written moves) ∧
      env.runOk = true := by
  rcases h3 : env.imgGet with _ | _ | _
  · -- found
    rcases hs : env.zipSaveOk with _ | _
    · simp only [runProjectWith, h3, hs, noResTrace] at h
      norm_num at h
    · rcases hz : env.zipValid with _ | _
      · simp only [runProjectWith, h3, hs, hz, noResTrace] at h
        norm_num at h
      · rcases hn : normalizeProject env language pc0 with r | _ | ⟨cmds, written, moves⟩
        · simp only [runProjectWith, h3, hs, hz, hn, noResTrace] at h
          norm_num at h
        · simp only [runProjectWith, h3, hs, hz, hn, noResTrace] at h
          norm_num at h
        · rcases h5 : env.runOk with _ | _
          · simp only [runProjectWith, h3, hs, hz, hn, h5, noResTrace] at h
            norm_num at h
          · exact ⟨rfl, rfl, rfl, ⟨cmds, written, moves, rfl⟩, rfl⟩
  · -- notFound
    rcases h4 : env.pullOk with _ | _ <;>
      simp only [runProjectWith, h3, h4, noResTrace] at h <;>
      exact absurd h (by norm_num)
  · -- otherError
    simp only [runProjectWith, h3, noResTrace] at h
    exact absurd h (by norm_num)

/-- A project request that launched a container went through one of the
three supported language branches. -/
theorem run_project_dispatch (env : ProjEnv) (language : String)
    (h : (run_project_in_docker env language).handleCreated = 1) :
    ∃ img0 pc0, run_project_in_docker env language = runProjectWith env language img0 pc0 := by
  by_cases hjs : language = "javascript"
  · subst hjs
    exact ⟨"node:20-slim", "npm install && npm test", rfl⟩
  · by_cases hpy : language = "python"
    · subst hpy
      exact ⟨"python:3.11-slim",
        "pip install pytest && if [ -f requirements.txt ]; then pip install -r requirements.txt; fi && pytest",
        rfl⟩
    · by_cases hja : language = "java"
      · subst hja
        exact ⟨"maven:3.9-eclipse-temurin-17", "mvn test", rfl⟩
      · exfalso
        simp only [run_project_in_docker, if_neg hjs, if_neg hpy, if_neg hja, noResTrace] at h
        exact absurd h (by norm_num)

/-- Resource accounting of every single-file request: at most one
workspace and at most one container, every created one is removed, and
a container implies a workspace. -/
theorem run_in_docker_resource (env : ExecEnv) (language code test_code : String) :
    (run_in_docker env language code test_code).wsCreated ≤ 1 ∧
    (run_in_docker env language code test_code).wsRemoved
      = (run_in_docker env language code test_code).wsCreated ∧
    (run_in_docker env language code test_code).handleCreated ≤ 1 ∧
    (run_in_docker env language code test_code).handleRemoved
      = (run_in_docker env language code test_code).handleCreated ∧
    (run_in_docker env language code test_code).handleCreated
      ≤ (run_in_docker env language code test_code).wsCreated := by
  unfold run_in_docker
  repeat' split
  all_goals simp [noResTrace]

/-- Resource accounting of every project request. -/
theorem run_project_resource (env : ProjEnv) (language : String) :
    (run_project_in_docker env language).wsCreated ≤ 1 ∧
    (run_project_in_docker env language).wsRemoved
      = (run_project_in_docker env language).wsCreated ∧
    (run_project_in_docker env language).handleCreated ≤ 1 ∧
    (run_project_in_docker env language).handleRemoved
      = (run_project_in_docker env language).handleCreated ∧
    (run_project_in_docker env language).handleCreated
      ≤ (run_project_in_docker env language).wsCreated := by
  unfold run_project_in_docker runProjectWith
  repeat' split
  all_goals simp [noResTrace]

/-- Workspace count per verdict, single-file mode: the post-staging
verdicts (Success, Failed, TimedOut) each see exactly one workspace,
while the ImagePulling verdict sees none. -/
theorem run_in_docker_ws_verdict (env : ExecEnv) (language code test_code : String) :
    ((traceVerdict (run_in_docker env language code test_code) = some .Success ∨
      traceVerdict (run_in_docker env language code test_code) = some .Failed ∨
      traceVerdict (run_in_docker env language code test_code) = some .TimedOut) →
      (run_in_docker env language code test_code).wsCreated = 1) ∧
    (traceVerdict (run_in_docker env language code test_code) = some .ImagePulling →
      (run_in_docker env language code test_code).wsCreated = 0) := by
  unfold run_in_docker
  repeat' split
  all_goals refine ⟨fun hv => ?_, fun hv => ?_⟩
  all_goals first
    | rfl
    | simp [traceVerdict, verdictOf, noResTrace] at hv

/-- The only early-return result of the normalizer is the missing
`pom.xml` rejection. -/
theorem normalizeProject_invalid_summary (env : ProjEnv) (language pc0 : String)
    (r : TestResultV) (h : normalizeProject env language pc0 = .invalid r) :
    r = ⟨false, "Invalid Project",
      "No \x27pom.xml\x27 found. Please include a pom.xml file."⟩ := by
  unfold normalizeProject at h
  repeat' split at h
  all_goals first
    | (injection h with h2; exact h2.symm)
    | simp at h

/-- Workspace count per verdict, project mode: the verdicts reached
after staging (Success, Failed, TimedOut, InvalidProject) each see
exactly one workspace, while the ImagePulling verdict sees none. -/
theorem run_project_ws_verdict (env : ProjEnv) (language : String) :
    ((traceVerdict (run_project_in_docker env language) = some .Success ∨
      traceVerdict (run_project_in_docker env language) = some .Failed ∨
      traceVerdict (run_project_in_docker env language) = some .TimedOut ∨
      traceVerdict (run_project_in_docker env language) = some .InvalidProject) →
      (run_project_in_docker env language).wsCreated = 1) ∧
    (traceVerdict (run_project_in_docker env language) = some .ImagePulling →
      (run_project_in_docker env language).wsCreated = 0) := by
  unfold run_project_in_docker runProjectWith
  repeat' split
  all_goals refine ⟨fun hv => ?_, fun hv => ?_⟩
  all_goals first
    | rfl
    | (simp [traceVerdict, verdictOf, noResTrace] at hv; done)
    | (rename_i r heq
       rw [normalizeProject_invalid_summary _ _ _ r heq] at hv
       simp [traceVerdict, verdictOf, noResTrace] at hv)

/-- The verdict of a single-file request does not depend on the log
content the container produced. -/
theorem traceVerdict_logs_single (env : ExecEnv) (language code test_code l : String) :
    traceVerdict (run_in_docker { env with logs := l } language code test_code)
      = traceVerdict (run_in_docker env language code test_code) := by
  rcases h1 : DOCKER_IMAGES.lookup language with _ | img <;>
    rcases h2 : RUN_COMMANDS.lookup language with _ | cmd <;>
    rcases h3 : env.imgGet with _ | _ | _ <;>
    rcases h4 : env.pullOk with _ | _ <;>
    rcases h5 : env.stageOk with _ | _ <;>
    rcases h6 : env.runOk with _ | _ <;>
    rcases h7 : env.waitCompletes with _ | _ <;>
    by_cases h8 : env.statusCode.getD 1 = 0 <;>
    simp [run_in_docker, h1, h2, h3, h4, h5, h6, h7, h8, traceVerdict, noResTrace, verdictOf]

/-- The verdict of `runProjectWith` does not depend on the log
content. -/
theorem traceVerdict_logs_projectWith (env : ProjEnv) (language img pc0 l : String) :
    traceVerdict (runProjectWith { env with logs := l } language img pc0)
      = traceVerdict (runProjectWith env language img pc0) := by
  obtain ⟨g, po, pe, zs, zv, fs, ds, ro, rk, wc, sc, lg, em⟩ := env
  have hn : normalizeProject ⟨g, po, pe, zs, zv, fs, ds, ro, rk, wc, sc, l, em⟩ language pc0
      = normalizeProject ⟨g, po, pe, zs, zv, fs, ds, ro, rk, wc, sc, lg, em⟩ language pc0 := rfl
  rcases hnr : normalizeProject ⟨g, po, pe, zs, zv, fs, ds, ro, rk, wc, sc, lg, em⟩ language pc0
    with r | _ | ⟨cmds, written, moves⟩ <;>
  rcases g with _ | _ | _ <;>
    rcases po with _ | _ <;>
    rcases zs with _ | _ <;>
    rcases zv with _ | _ <;>
    rcases rk with _ | _ <;>
    rcases wc with _ | _ <;>
    by_cases h9 : sc.getD 1 = 0 <;>
    simp_all [runProjectWith, traceVerdict, noResTrace, verdictOf]

/-- The verdict of a project request does not depend on the log
content. -/
theorem traceVerdict_logs_project (env : ProjEnv) (language l : String) :
    traceVerdict (run_project_in_docker { env with logs := l } language)
      = traceVerdict (run_project_in_docker env language) := by
  by_cases hjs : language = "javascript"
  · subst hjs
    exact traceVerdict_logs_projectWith env "javascript" "node:20-slim"
      "npm install && npm test" l
  · by_cases hpy : language = "python"
    · subst hpy
      exact traceVerdict_logs_projectWith env "python" "python:3.11-slim"
        "pip install pytest && if [ -f requirements.txt ]; then pip install -r requirements.txt; fi && pytest" l
    · by_cases hja : language = "java"
      · subst hja
        exact traceVerdict_logs_projectWith env "java" "maven:3.9-eclipse-temurin-17"
          "mvn test" l
      · simp [run_project_in_docker, hjs, hpy, hja, traceVerdict, noResTrace]

/-! ## Claims -/

/-- C1: for every execution that completes within its wait bound, exit
status 0 yields the Success verdict and any non-zero exit status yields
the Failed verdict, in both single-file and project mode; the
classification depends only on the exit code, never on the log content;
an execution exceeding its wait bound yields TimedOut. -/
theorem exit_code_authoritative
    (envS : ExecEnv) (envP : ProjEnv) (langS langP code test : String) (e ep : Int)
    (hS : (run_in_docker envS langS code test).handleCreated = 1)
    (hP : (run_project_in_docker envP langP).handleCreated = 1) :
    (envS.waitCompletes = true → envS.statusCode = some e →
      ∃ r, (run_in_docker envS langS code test).out = .ok r ∧
        verdictOf r = (if e = 0 then .Success else .Failed) ∧ r.output = envS.logs) ∧
    (envS.waitCompletes = false →
      ∃ r, (run_in_docker envS langS code test).out = .ok r ∧ verdictOf r = .TimedOut) ∧
    (envP.waitCompletes = true → envP.statusCode = some ep →
      ∃ r, (run_project_in_docker envP langP).out = .ok r ∧
        verdictOf r = (if ep = 0 then .Success else .Failed) ∧ r.output = envP.logs) ∧
    (envP.waitCompletes = false →
      ∃ r, (run_project_in_docker envP langP).out = .ok r ∧ verdictOf r = .TimedOut) ∧
    (∀ l1 l2, traceVerdict (run_in_docker { envS with logs := l1 } langS code test)
      = traceVerdict (run_in_docker { envS with logs := l2 } langS code test)) ∧
    (∀ l1 l2, traceVerdict (run_project_in_docker { envP with logs := l1 } langP)
      = traceVerdict (run_project_in_docker { envP with logs := l2 } langP)) := by
  obtain ⟨img, cmd, h1, h2, h3, h4, h5⟩ := run_in_docker_handle_inv envS langS code test hS
  obtain ⟨img0, pc0, hdisp⟩ := run_project_dispatch envP langP hP
  rw [hdisp] at hP
  obtain ⟨hPi, hPs, hPz, ⟨cmds, written, moves, hPn⟩, hPr⟩ :=
    runProjectWith_handle_inv envP langP img0 pc0 hP
  have hrunS := run_in_docker_launched envS langS code test img cmd h1 h2 h3 h4 h5
  have hrunP := runProjectWith_launched envP langP img0 pc0 cmds written moves
    hPi hPs hPz hPn hPr
  refine ⟨?_, ?_, ?_, ?_, ?_, ?_⟩
  · intro hw hsc
    rw [hrunS, hw, hsc]
    by_cases he : e = 0 <;> simp [he, verdictOf]
  · intro hw
    rw [hrunS, hw]
    exact ⟨_, rfl, rfl⟩
  · intro hw hsc
    rw [hdisp, hrunP, hw, hsc]
    by_cases he : ep = 0 <;> simp [he, verdictOf]
  · intro hw
    rw [hdisp, hrunP, hw]
    exact ⟨_, rfl, rfl⟩
  · intro l1 l2
    exact (traceVerdict_logs_single envS langS code test l1).trans
      (traceVerdict_logs_single envS langS code test l2).symm
  · intro l1 l2
    exact (traceVerdict_logs_project envP langP l1).trans
      (traceVerdict_logs_project envP langP l2).symm

/-- C1 witness: a healthy Python single-file run with exit code 0 and a
healthy Java project run, instantiating `exit_code_authoritative`. -/
theorem exit_code_authoritative_witness :
    ∃ r, (run_in_docker okEnvS "python" "print(1)" "assert True").out = .ok r ∧
      verdictOf r = .Success := by
  obtain ⟨h1, -, -, -, -, -⟩ :=
    exit_code_authoritative okEnvS flatJavaEnvP "python" "java"
      "print(1)" "assert True" 0 0 (by decide) (by decide)
  obtain ⟨r, hr, hv, -⟩ := h1 rfl rfl
  exact ⟨r, hr, by simpa using hv⟩

/-- C2 (amended): every request creates at most one workspace and at
most one execution handle, every created workspace and handle is
destroyed before the result is returned (so the workspace is absent
afterwards), and a handle is only ever created inside a workspace.
Every verdict reached after staging — Success, Failed, TimedOut and,
in project mode, InvalidProject — sees exactly one workspace created
(and, by the removal equation, removed), while the ImagePulling verdict
is produced before any workspace exists, so "exactly one" does not hold
for it (see the counterexample). -/
theorem workspace_handle_lifecycle
    (envS : ExecEnv) (envP : ProjEnv) (langS langP code test : String) :
    (run_in_docker envS langS code test).wsCreated ≤ 1 ∧
    (run_in_docker envS langS code test).wsRemoved
      = (run_in_docker envS langS code test).wsCreated ∧
    (run_in_docker envS langS code test).handleCreated ≤ 1 ∧
    (run_in_docker envS langS code test).handleRemoved
      = (run_in_docker envS langS code test).handleCreated ∧
    (run_in_docker envS langS code test).handleCreated
      ≤ (run_in_docker envS langS code test).wsCreated ∧
    (run_project_in_docker envP langP).wsCreated ≤ 1 ∧
    (run_project_in_docker envP langP).wsRemoved
      = (run_project_in_docker envP langP).wsCreated ∧
    (run_project_in_docker envP langP).handleCreated ≤ 1 ∧
    (run_project_in_docker envP langP).handleRemoved
      = (run_project_in_docker envP langP).handleCreated ∧
    (run_project_in_docker envP langP).handleCreated
      ≤ (run_project_in_docker envP langP).wsCreated ∧
    ((traceVerdict (run_in_docker envS langS code test) = some .Success ∨
      traceVerdict (run_in_docker envS langS code test) = some .Failed ∨
      traceVerdict (run_in_docker envS langS code test) = some .TimedOut) →
      (run_in_docker envS langS code test).wsCreated = 1) ∧
    (traceVerdict (run_in_docker envS langS code test) = some .ImagePulling →
      (run_in_docker envS langS code test).wsCreated = 0) ∧
    ((traceVerdict (run_project_in_docker envP langP) = some .Success ∨
      traceVerdict (run_project_in_docker envP langP) = some .Failed ∨
      traceVerdict (run_project_in_docker envP langP) = some .TimedOut ∨
      traceVerdict (run_project_in_docker envP langP) = some .InvalidProject) →
      (run_project_in_docker envP langP).wsCreated = 1) ∧
    (traceVerdict (run_project_in_docker envP langP) = some .ImagePulling →
      (run_project_in_docker envP langP).wsCreated = 0) := by
  obtain ⟨s1, s2, s3, s4, s5⟩ := run_in_docker_resource envS langS code test
  obtain ⟨p1, p2, p3, p4, p5⟩ := run_project_resource envP langP
  obtain ⟨v1, v2⟩ := run_in_docker_ws_verdict envS langS code test
  obtain ⟨w1, w2⟩ := run_project_ws_verdict envP langP
  exact ⟨s1, s2, s3, s4, s5, p1, p2, p3, p4, p5, v1, v2, w1, w2⟩

/-- C2 witness: instantiating `workspace_handle_lifecycle` at the
healthy single-file environment and the flat Java project: the Success
verdict is reached with exactly one workspace, created and removed. -/
theorem workspace_handle_lifecycle_witness :
    (run_in_docker okEnvS "python" "print(1)" "assert True").wsCreated = 1 ∧
    (run_in_docker okEnvS "python" "print(1)" "assert True").wsRemoved
      = (run_in_docker okEnvS "python" "print(1)" "assert True").wsCreated ∧
    (run_project_in_docker flatJavaEnvP "java").wsCreated = 1 := by
  obtain ⟨-, s2, -, -, -, -, -, -, -, -, v1, -, w1, -⟩ :=
    workspace_handle_lifecycle okEnvS flatJavaEnvP "python" "java" "print(1)" "assert True"
  exact ⟨v1 (Or.inl (by decide)), s2, w1 (Or.inl (by decide))⟩

/-- C2 counterexample: when the image is absent and the pull succeeds,
the request completes with the ImagePulling verdict having created no
workspace at all — refuting "exactly one workspace directory is created
... under every verdict including ImagePulling". -/
theorem workspace_handle_lifecycle_cex :
    (run_in_docker pullEnvS "python" "print(1)" "assert True").wsCreated = 0 ∧
    ∃ r, (run_in_docker pullEnvS "python" "print(1)" "assert True").out = .ok r ∧
      verdictOf r = .ImagePulling := by
  refine ⟨rfl, ⟨_, rfl, ?_⟩⟩
  rfl

/-- C4 (amended): for Python and JavaScript single-file submissions,
staging writes exactly two files — the submitted source and the test
source under the fixed names; for Java, staging writes exactly one
file, `TestRunner.java`, holding the sanitizer's output on the test
source, and the submitted source is not written at all. -/
theorem staging_files (env : ExecEnv) (code test : String)
    (h3 : env.imgGet = .found) (h4 : env.stageOk = true) (h5 : env.runOk = true) :
    (run_in_docker env "python" code test).filesWritten
      = [("user_code.py", code), ("test_code.py", test)] ∧
    (run_in_docker env "javascript" code test).filesWritten
      = [("user_code.js", code), ("test_code.js", test)] ∧
    (run_in_docker env "java" code test).filesWritten
      = [("TestRunner.java", sanitize_java_code test)] := by
  refine ⟨?_, ?_, ?_⟩
  · rw [run_in_docker_launched env "python" code test _ _ rfl rfl h3 h4 h5]
    split_ifs <;> rfl
  · rw [run_in_docker_launched env "javascript" code test _ _ rfl rfl h3 h4 h5]
    split_ifs <;> rfl
  · rw [run_in_docker_launched env "java" code test _ _ rfl rfl h3 h4 h5]
    split_ifs <;> rfl

/-- C4 witness: instantiating `staging_files` in the healthy
environment. -/
theorem staging_files_witness :
    (run_in_docker okEnvS "java" "class A \x7b\x7d" "class T \x7b\x7d").filesWritten
      = [("TestRunner.java", sanitize_java_code "class T \x7b\x7d")] :=
  (staging_files okEnvS "class A \x7b\x7d" "class T \x7b\x7d" rfl rfl rfl).2.2

/-- C4 counterexample: for a Java single-file submission only one file
is written, not two, and the submitted source does not appear among the
staged files — refuting "staging writes exactly two files ... the
submitted source ... and the test source" for Java. -/
theorem staging_files_cex :
    ((run_in_docker okEnvS "java" "class A \x7b\x7d" "class T \x7b\x7d").filesWritten.length = 2
      → False) ∧
    ((run_in_docker okEnvS "java" "class A \x7b\x7d" "class T \x7b\x7d").filesWritten.any
      (fun f => f.2 = "class A \x7b\x7d")) = false := by
  constructor
  · decide
  · decide

/-- C8 (amended): when the resolved image is locally absent a blocking
fetch is performed; on fetch success the request returns the
ImagePulling verdict without creating a workspace or launching any
container; on fetch failure it returns InfrastructureError with the
fixed summary "Failed to Download Environment" and the underlying fetch
error embedded in the output (the full-log field), not in the
summary. -/
theorem image_pull_behaviour (envS : ExecEnv) (envP : ProjEnv)
    (langS langP code test img : String) (cmd : List String)
    (h1 : DOCKER_IMAGES.lookup langS = some img)
    (h2 : RUN_COMMANDS.lookup langS = some cmd)
    (himgS : envS.imgGet = .notFound) (himgP : envP.imgGet = .notFound)
    (hlP : langP = "javascript" ∨ langP = "python" ∨ langP = "java") :
    (envS.pullOk = true →
      (run_in_docker envS langS code test).wsCreated = 0 ∧
      (run_in_docker envS langS code test).handleCreated = 0 ∧
      ∃ r, (run_in_docker envS langS code test).out = .ok r ∧
        verdictOf r = .ImagePulling) ∧
    (envS.pullOk = false →
      ∃ r, (run_in_docker envS langS code test).out = .ok r ∧
        verdictOf r = .InfrastructureError ∧
        r.summary = "Failed to Download Environment" ∧
        ∃ pre, r.output = pre ++ envS.pullError) ∧
    (envP.pullOk = true →
      (run_project_in_docker envP langP).wsCreated = 0 ∧
      (run_project_in_docker envP langP).handleCreated = 0 ∧
      ∃ r, (run_project_in_docker envP langP).out = .ok r ∧
        verdictOf r = .ImagePulling) ∧
    (envP.pullOk = false →
      ∃ r, (run_project_in_docker envP langP).out = .ok r ∧
        verdictOf r = .InfrastructureError ∧
        r.summary = "Failed to Download Environment" ∧
        ∃ pre, r.output = pre ++ envP.pullError) := by
  have hprojEq : ∀ img0 pc0,
      runProjectWith envP langP img0 pc0 =
        (if envP.pullOk then
          noResTrace (.ok ⟨false, "Downloading Environment...",
            "The " ++ langP ++
              " project environment was not found. The download has completed. Please re-upload the project."⟩)
        else
          noResTrace (.ok ⟨false, "Failed to Download Environment",
            "Failed to pull Docker image. Error: " ++ envP.pullError⟩)) := by
    intro img0 pc0
    simp only [runProjectWith, himgP]
  have hdisp : ∃ img0 pc0,
      run_project_in_docker envP langP = runProjectWith envP langP img0 pc0 := by
    rcases hlP with rfl | rfl | rfl
    · exact ⟨"node:20-slim", "npm install && npm test", rfl⟩
    · exact ⟨"python:3.11-slim",
        "pip install pytest && if [ -f requirements.txt ]; then pip install -r requirements.txt; fi && pytest",
        rfl⟩
    · exact ⟨"maven:3.9-eclipse-temurin-17", "mvn test", rfl⟩
  obtain ⟨img0, pc0, hd⟩ := hdisp
  refine ⟨?_, ?_, ?_, ?_⟩
  · intro hp
    have htr : run_in_docker envS langS code test
        = noResTrace (.ok ⟨false, "Downloading Environment...",
            "The Docker image \x27" ++ img ++
              "\x27 was not found. The download has completed. Please try running the test again."⟩) := by
      simp [run_in_docker, h1, h2, himgS, hp]
    rw [htr]
    exact ⟨rfl, rfl, _, rfl, rfl⟩
  · intro hp
    have htr : run_in_docker envS langS code test
        = noResTrace (.ok ⟨false, "Failed to Download Environment",
            "Failed to pull Docker image \x27" ++ img ++ "\x27. Error: " ++ envS.pullError⟩) := by
      simp [run_in_docker, h1, h2, himgS, hp]
    rw [htr]
    exact ⟨_, rfl, rfl, rfl,
      ⟨"Failed to pull Docker image \x27" ++ img ++ "\x27. Error: ", rfl⟩⟩
  · intro hp
    have htr : run_project_in_docker envP langP
        = noResTrace (.ok ⟨false, "Downloading Environment...",
            "The " ++ langP ++
              " project environment was not found. The download has completed. Please re-upload the project."⟩) := by
      rw [hd, hprojEq img0 pc0, hp, if_pos rfl]
    rw [htr]
    exact ⟨rfl, rfl, _, rfl, rfl⟩
  · intro hp
    have htr : run_project_in_docker envP langP
        = noResTrace (.ok ⟨false, "Failed to Download Environment",
            "Failed to pull Docker image. Error: " ++ envP.pullError⟩) := by
      rw [hd, hprojEq img0 pc0, hp]
      simp
    rw [htr]
    exact ⟨_, rfl, rfl, rfl, ⟨"Failed to pull Docker image. Error: ", rfl⟩⟩

/-- C8 witness: instantiating `image_pull_behaviour` for Python with a
failed pull. -/
theorem image_pull_behaviour_witness :
    ∃ r, (run_in_docker pullFailEnvS "python" "c" "t").out = .ok r ∧
      verdictOf r = .InfrastructureError ∧
      r.summary = "Failed to Download Environment" ∧
      ∃ pre, r.output = pre ++ pullFailEnvS.pullError := by
  obtain ⟨-, h2, -, -⟩ :=
    image_pull_behaviour pullFailEnvS { flatJavaEnvP with imgGet := .notFound }
      "python" "java" "c" "t" "python:3.11-slim"
      ["python", "-m", "unittest", "test_code.py"] rfl rfl rfl rfl (Or.inr (Or.inr rfl))
  exact h2 rfl

/-- C8 counterexample: on a failed fetch the underlying error text
appears only in the output, not in the summary — refuting "the
underlying fetch error embedded in the summary". -/
theorem image_pull_behaviour_cex :
    (run_in_docker pullFailEnvS "python" "c" "t").out
      = .ok ⟨false, "Failed to Download Environment",
          "Failed to pull Docker image \x27python:3.11-slim\x27. Error: registry unreachable"⟩ ∧
    strContains "registry unreachable" "Failed to Download Environment" = false := by
  constructor
  · rfl
  · decide

/-- C10: `java-project` is a key of the image table, so it passes the
supported-language check, but it has no entry in the run-command table;
the lookup raises a KeyError before any workspace is created, and the
endpoint surfaces it as a 500 internal server error, while a language
absent from the image table gets the explicit client-input rejection
inside the helper. -/
theorem java_project_single_file_gap (env : ExecEnv) (code test : String) :
    (DOCKER_IMAGES.lookup "java-project").isSome = true ∧
    RUN_COMMANDS.lookup "java-project" = none ∧
    run_in_docker env "java-project" code test
      = noResTrace (.raised (.keyError "java-project")) ∧
    (run_in_docker env "java-project" code test).wsCreated = 0 ∧
    run_test env "java-project" code test
      = .raised (.httpExc 500 "Internal Server Error: java-project") ∧
    (∀ langU, DOCKER_IMAGES.lookup langU = none →
      (run_in_docker env langU code test).out
        = .raised (.httpExc 400 "Unsupported language")) := by
  refine ⟨rfl, rfl, rfl, rfl, rfl, ?_⟩
  intro langU hU
  simp only [run_in_docker, hU, noResTrace]

/-- C6: a Java project archive without a root `pom.xml` gets the
InvalidProject verdict and no container is launched. -/
theorem java_no_pom_invalid (env : ProjEnv)
    (himg : env.imgGet = .found) (hsave : env.zipSaveOk = true) (hzip : env.zipValid = true)
    (hpom : pathExists env "pom.xml" = false) :
    (∃ r, (run_project_in_docker env "java").out = .ok r ∧
      verdictOf r = .InvalidProject) ∧
    (run_project_in_docker env "java").handleCreated = 0 ∧
    (run_project_in_docker env "java").command = none := by
  have hn : normalizeProject env "java" "mvn test"
      = .invalid ⟨false, "Invalid Project",
          "No \x27pom.xml\x27 found. Please include a pom.xml file."⟩ := by
    simp [normalizeProject, hpom]
  have htr : run_project_in_docker env "java"
      = { out := .ok ⟨false, "Invalid Project",
            "No \x27pom.xml\x27 found. Please include a pom.xml file."⟩,
          wsCreated := 1, wsRemoved := 1, handleCreated := 0, handleRemoved := 0,
          filesWritten := [], command := none, javaMoves := [] } := by
    rw [run_project_java]
    simp [runProjectWith, himg, hsave, hzip, hn]
  rw [htr]
  exact ⟨⟨_, rfl, rfl⟩, rfl, rfl⟩

/-- C6 witness: the concrete Java project with no `pom.xml`. -/
theorem java_no_pom_invalid_witness :
    ∃ r, (run_project_in_docker noPomEnvP "java").out = .ok r ∧
      verdictOf r = .InvalidProject :=
  (java_no_pom_invalid noPomEnvP rfl rfl rfl (by decide)).1

/-- C5: the code intends InvalidProject for a JavaScript project with
neither a `package.json` nor the static front-end shape, but the early
return references the undefined name `error_msg`; the resulting
NameError is swallowed by the blanket handler and the request returns
the InfrastructureError summary "Docker Execution Error" instead. -/
theorem js_invalid_project_name_error (env : ProjEnv)
    (himg : env.imgGet = .found) (hsave : env.zipSaveOk = true) (hzip : env.zipValid = true)
    (hpkg : pathExists env "package.json" = false)
    (hfe : (pathExists env "index.html" && pathExists env "script.js") = false) :
    (run_project_in_docker env "javascript").out
      = .ok ⟨false, "Docker Execution Error",
          "An unexpected error occurred: name \x27error_msg\x27 is not defined"⟩ ∧
    verdictOf ⟨false, "Docker Execution Error",
        "An unexpected error occurred: name \x27error_msg\x27 is not defined"⟩
      = .InfrastructureError := by
  have hn : normalizeProject env "javascript" "npm install && npm test" = .nameErr := by
    unfold normalizeProject
    rw [if_neg (by decide), if_neg (by decide)]
    simp [hfe, hpkg]
  have htr : run_project_in_docker env "javascript"
      = { out := .ok ⟨false, "Docker Execution Error",
            "An unexpected error occurred: name \x27error_msg\x27 is not defined"⟩,
          wsCreated := 1, wsRemoved := 1, handleCreated := 0, handleRemoved := 0,
          filesWritten := [], command := none, javaMoves := [] } := by
    rw [run_project_javascript]
    simp [runProjectWith, himg, hsave, hzip, hn]
  rw [htr]
  exact ⟨rfl, rfl⟩

/-- C5 witness: a JavaScript project containing only `app.js`. -/
theorem js_invalid_project_name_error_witness :
    (run_project_in_docker jsBadEnvP "javascript").out
      = .ok ⟨false, "Docker Execution Error",
          "An unexpected error occurred: name \x27error_msg\x27 is not defined"⟩ :=
  (js_invalid_project_name_error jsBadEnvP rfl rfl rfl (by decide) (by decide)).1

/-- C7: flat-layout Java repair.  The moves recorded by the request are
exactly the restructure of the root-level `.java` files; each readable
root `.java` file is moved under `src/main/java/<package path>` when it
declares a package and directly under `src/main/java` otherwise,
renamed to its detected public class when that differs from the file's
stem; unreadable files are skipped; and the request's verdict does not
depend on the per-file outcomes. -/
theorem java_flat_layout_repair (env : ProjEnv)
    (himg : env.imgGet = .found) (hsave : env.zipSaveOk = true) (hzip : env.zipValid = true)
    (hpom : pathExists env "pom.xml" = true)
    (hsrc : pathExists env "src/main/java" = false)
    (hrun : env.runOk = true) :
    (run_project_in_docker env "java").javaMoves = javaRestructure env ∧
    (∀ name content, (name, content) ∈ env.fs → isRootEntry name = true →
      strEndsWith name ".java" = true → env.readOk name = true →
      ∃ mv : JavaMove, mv ∈ javaRestructure env ∧
        processJavaFile env.readOk name content = some mv ∧
        mv = ⟨name,
          (match packageOf content with
           | some pkg => "src/main/java/" ++ dotsToSlashes pkg
           | none => "src/main/java"),
          (match publicClassOf content with
           | some detected => if stemOf name ≠ detected then detected ++ ".java" else name
           | none => name)⟩) ∧
    (∀ name content, env.readOk name = false →
      processJavaFile env.readOk name content = none) ∧
    (∀ ro : String → Bool,
      traceVerdict (run_project_in_docker { env with readOk := ro } "java")
        = traceVerdict (run_project_in_docker env "java")) := by
  have hn : normalizeProject env "java" "mvn test"
      = .proceed "mvn test" [] (javaRestructure env) := by
    simp [normalizeProject, hpom, hsrc]
  refine ⟨?_, ?_, ?_, ?_⟩
  · rw [run_project_java,
      runProjectWith_launched env "java" "maven:3.9-eclipse-temurin-17" "mvn test"
        "mvn test" [] (javaRestructure env) himg hsave hzip hn hrun]
    split_ifs <;> rfl
  · intro name content hmem hroot hjava hread
    refine ⟨⟨name,
      (match packageOf content with
       | some pkg => "src/main/java/" ++ dotsToSlashes pkg
       | none => "src/main/java"),
      (match publicClassOf content with
       | some detected => if stemOf name ≠ detected then detected ++ ".java" else name
       | none => name)⟩, ?_, ?_, rfl⟩
    · refine List.mem_filterMap.mpr ⟨(name, content), ?_, ?_⟩
      · exact List.mem_filter.mpr ⟨hmem, by simp [hroot, hjava]⟩
      · simp only [processJavaFile, hread, if_pos]
        rcases hpk : packageOf content with _ | pkg <;> simp [hpk]
    · simp only [processJavaFile, hread, if_pos]
      rcases hpk : packageOf content with _ | pkg <;> simp [hpk]
  · intro name content h
    simp [processJavaFile, h]
  · intro ro
    have himg2 : ({ env with readOk := ro } : ProjEnv).imgGet = .found := himg
    have hsave2 : ({ env with readOk := ro } : ProjEnv).zipSaveOk = true := hsave
    have hzip2 : ({ env with readOk := ro } : ProjEnv).zipValid = true := hzip
    have hrun2 : ({ env with readOk := ro } : ProjEnv).runOk = true := hrun
    have hn2 : normalizeProject { env with readOk := ro } "java" "mvn test"
        = .proceed "mvn test" [] (javaRestructure { env with readOk := ro }) := by
      have hpom2 : pathExists { env with readOk := ro } "pom.xml" = true := hpom
      have hsrc2 : pathExists { env with readOk := ro } "src/main/java" = false := hsrc
      simp [normalizeProject, hpom2, hsrc2]
    rw [run_project_java, run_project_java,
      runProjectWith_launched { env with readOk := ro } "java"
        "maven:3.9-eclipse-temurin-17" "mvn test" "mvn test" []
        (javaRestructure { env with readOk := ro }) himg2 hsave2 hzip2 hn2 hrun2,
      runProjectWith_launched env "java" "maven:3.9-eclipse-temurin-17" "mvn test"
        "mvn test" [] (javaRestructure env) himg hsave hzip hn hrun]
    have hwc : ({ env with readOk := ro } : ProjEnv).waitCompletes = env.waitCompletes := rfl
    have hsc : ({ env with readOk := ro } : ProjEnv).statusCode = env.statusCode := rfl
    have hlg : ({ env with readOk := ro } : ProjEnv).logs = env.logs := rfl
    rw [hwc, hsc, hlg]
    split_ifs <;> rfl

/-- C7 witness: the flat Java project; `Foo.java` declares
`package com.acme.util;` and `public class Bar`, so it is renamed to
`Bar.java` and destined for `src/main/java/com/acme/util`;
`Plain.java` has no package and stays `Plain.java` under
`src/main/java`. -/
theorem java_flat_layout_repair_witness :
    (run_project_in_docker flatJavaEnvP "java").javaMoves
      = javaRestructure flatJavaEnvP ∧
    javaRestructure flatJavaEnvP
      = [⟨"Foo.java", "src/main/java/com/acme/util", "Bar.java"⟩,
         ⟨"Plain.java", "src/main/java", "Plain.java"⟩] := by
  constructor
  · exact (java_flat_layout_repair flatJavaEnvP rfl rfl rfl (by decide) (by decide) rfl).1
  · decide

set_option maxRecDepth 8192 in
/-- C9: for a Python project archive with no root-level test files, the
smoke-test module is synthesized into the workspace verbatim, the
composed command runs exactly that module via pytest, the module's text
stubs tkinter, turtle and pygame and imports the discovered modules,
and a non-empty requirements file under either accepted name prepends
its install step. -/
theorem python_smoke_synthesis (env : ProjEnv)
    (himg : env.imgGet = .found) (hsave : env.zipSaveOk = true) (hzip : env.zipValid = true)
    (hnotest : (env.fs.any fun e => isRootEntry e.1 && matchesTestGlob e.1) = false)
    (hrun : env.runOk = true) :
    ("test_smoke_generated.py", smokeTestStr)
        ∈ (run_project_in_docker env "python").filesWritten ∧
    (run_project_in_docker env "python").command
      = some ["sh", "-c",
          "pip install pytest && " ++ pythonInstallCmd env ++ "pytest test_smoke_generated.py"] ∧
    strContains "sys.modules[\"tkinter\"] = MagicMock()" smokeTestStr = true ∧
    strContains "sys.modules[\"turtle\"] = MagicMock()" smokeTestStr = true ∧
    strContains "sys.modules[\"pygame\"] = MagicMock()" smokeTestStr = true ∧
    strContains "importlib.import_module(module_name)" smokeTestStr = true ∧
    (∀ content, env.fs.lookup "requirements.txt" = some content → 0 < content.length →
      pythonInstallCmd env = "pip install -r requirements.txt && ") ∧
    (env.dirs.contains "requirements.txt" = false →
      env.fs.lookup "requirements.txt" = none →
      ∀ content, env.fs.lookup "requirement.txt" = some content → 0 < content.length →
      pythonInstallCmd env = "pip install -r requirement.txt && ") := by
  have hn : normalizeProject env "python"
      "pip install pytest && if [ -f requirements.txt ]; then pip install -r requirements.txt; fi && pytest"
      = .proceed ("pip install pytest && " ++ pythonInstallCmd env
          ++ "pytest test_smoke_generated.py")
        [("test_smoke_generated.py", smokeTestStr)] [] := by
    unfold normalizeProject
    rw [if_neg (by decide), if_pos rfl, if_pos (by rw [hnotest])]
  have hlaunch := runProjectWith_launched env "python" "python:3.11-slim"
    "pip install pytest && if [ -f requirements.txt ]; then pip install -r requirements.txt; fi && pytest"
    ("pip install pytest && " ++ pythonInstallCmd env ++ "pytest test_smoke_generated.py")
    [("test_smoke_generated.py", smokeTestStr)] [] himg hsave hzip hn hrun
  refine ⟨?_, ?_, by decide, by decide, by decide, by decide, ?_, ?_⟩
  · rw [run_project_python, hlaunch]
    split_ifs <;> exact List.mem_singleton.mpr rfl
  · rw [run_project_python, hlaunch]
    split_ifs <;> rfl
  · intro content hc hlen
    have hre : pathExists env "requirements.txt" = true := by
      simp [pathExists, hc]
    simp [pythonInstallCmd, pythonReqFile, hre, hc, hlen]
  · intro hdir hnone content hc hlen
    have hdir2 : "requirements.txt" ∉ env.dirs := by simpa using hdir
    have hre : pathExists env "requirements.txt" = false := by
      simp [pathExists, hdir2, hnone]
    have hre2 : pathExists env "requirement.txt" = true := by
      simp [pathExists, hc]
    simp [pythonInstallCmd, pythonReqFile, hre, hre2, hc, hlen]

/-- C9 witness: the Python project with `main.py` and a non-empty
`requirements.txt` only. -/
theorem python_smoke_synthesis_witness :
    ("test_smoke_generated.py", smokeTestStr)
        ∈ (run_project_in_docker pyEnvP "python").filesWritten ∧
    (run_project_in_docker pyEnvP "python").command
      = some ["sh", "-c",
          "pip install pytest && " ++ pythonInstallCmd pyEnvP
            ++ "pytest test_smoke_generated.py"] ∧
    pythonInstallCmd pyEnvP = "pip install -r requirements.txt && " := by
  obtain ⟨h1, h2, -, -, -, -, h7, -⟩ :=
    python_smoke_synthesis pyEnvP rfl rfl rfl (by decide) rfl
  exact ⟨h1, h2, h7 "requests" rfl (by decide)⟩

/-- C3 (amended): the sanitizer's output carries each distinct import
line exactly once, in first-occurrence order; no line whose stripped
form starts with `package ` survives; the output is exactly the
deduplicated imports, one blank separator line, and the unchanged body
lines in order; and although re-sanitizing is **not** the identity (it
inserts one more blank line), it preserves the deduplicated import
list. -/
theorem sanitize_java_properties (s : String) :
    (dedupFirst (javaImportLines s)).Nodup ∧
    (∀ l, l ∈ dedupFirst (javaImportLines s) ↔ l ∈ javaImportLines s) ∧
    (dedupFirst (javaImportLines s)).Sublist (javaImportLines s) ∧
    (∀ l ∈ splitlinesL (sanitize_java_code s).toList, isPackageLineL l = false) ∧
    (sanitize_java_code s).toList
      = joinNlL (dedupFirst (javaImportLines s) ++ [[]] ++ javaBodyLines s) ∧
    (splitlinesL (sanitize_java_code (sanitize_java_code s)).toList).filter isImportLineL
      = dedupFirst (javaImportLines s) := by
  refine ⟨nodup_dedupFirst _, fun l => mem_dedupFirst _, dedupFirst_sublist _,
    no_package_in_sanitize s, sanitize_java_code_toList s, ?_⟩
  have h1 := imports_of_sanitize (sanitize_java_code s)
  have h2 : javaImportLines (sanitize_java_code s) = dedupFirst (javaImportLines s) :=
    imports_of_sanitize s
  rw [h1, h2, dedupFirst_eq_self (nodup_dedupFirst _)]

/-- C3 witness: the sanitizer's guarantees at a concrete source with a
duplicated import, a package line and a body line. -/
theorem sanitize_java_properties_witness :
    (sanitize_java_code "import a.b;\npackage p;\nimport a.b;\nclass A").toList
      = joinNlL (dedupFirst (javaImportLines "import a.b;\npackage p;\nimport a.b;\nclass A")
          ++ [[]] ++ javaBodyLines "import a.b;\npackage p;\nimport a.b;\nclass A") ∧
    (∀ l ∈ splitlinesL
        (sanitize_java_code "import a.b;\npackage p;\nimport a.b;\nclass A").toList,
      isPackageLineL l = false) := by
  obtain ⟨-, -, -, h4, h5, -⟩ :=
    sanitize_java_properties "import a.b;\npackage p;\nimport a.b;\nclass A"
  exact ⟨h5, h4⟩

/-- C3 counterexample: the sanitizer is not idempotent — re-sanitizing
`"class A"` prepends a second blank line. -/
theorem sanitize_java_properties_cex :
    ¬ (sanitize_java_code (sanitize_java_code "class A")
        = sanitize_java_code "class A") := by decide

/-- C10 witness: the gap at concrete inputs, including the contrasting
rejection of the unsupported language `ruby`. -/
theorem java_project_single_file_gap_witness :
    run_test okEnvS "java-project" "class A" "class T"
      = .raised (.httpExc 500 "Internal Server Error: java-project") ∧
    (run_in_docker okEnvS "ruby" "class A" "class T").out
      = .raised (.httpExc 400 "Unsupported language") := by
  obtain ⟨-, -, -, -, h5, h6⟩ :=
    java_project_single_file_gap okEnvS "class A" "class T"
  exact ⟨h5, h6 "ruby" rfl⟩

end ConfigWhiz

